import Mathlib

/-!
Verification of the farm-advisory core (crop recommender, historical data
processor, trend estimator, pattern detector).

The Python source works on pandas DataFrames.  We embed a DataFrame as an
ordered association list of named numeric columns together with a row count
(`len(df)` in pandas).  Numeric cell values are rationals; boolean pandas
columns are stored as 0/1 rationals.  Stateful column assignment
(`df[name] = values`) is embedded by explicit state passing: functions that
mutate their input frame return the updated frame alongside their result.
-/

namespace FarmCore

/-- Lookup of a named column in an ordered association list
(first occurrence wins, like pandas column access). -/
def lookupCol {α : Type} : List (String × α) → String → Option α
  | [], _ => none
  | (m, w) :: rest, name => if m = name then some w else lookupCol rest name

/-- A pandas DataFrame: ordered named numeric columns plus the index length. -/
structure DataFrame where
  columns : List (String × List ℚ)
  nrows : ℕ
deriving DecidableEq

/-- Column access `df[name]`. -/
def DataFrame.getCol (df : DataFrame) (name : String) : Option (List ℚ) :=
  lookupCol df.columns name

/-- Replace the (first) column called `name`, or append a new column at the
end, mirroring pandas assignment `df[name] = values`. -/
def replaceCol : List (String × List ℚ) → String → List ℚ → List (String × List ℚ)
  | [], name, v => [(name, v)]
  | (m, w) :: rest, name, v =>
    if m = name then (name, v) :: rest else (m, w) :: replaceCol rest name v

/-- Column assignment `df[name] = values`. -/
def DataFrame.setCol (df : DataFrame) (name : String) (v : List ℚ) : DataFrame :=
  ⟨replaceCol df.columns name v, df.nrows⟩

/-- pandas `df.empty`: no rows or no columns. -/
def DataFrame.isEmpty (df : DataFrame) : Bool :=
  df.nrows == 0 || df.columns.isEmpty

/-- Sum of a numeric column (pandas `.sum()`). -/
def qSum (l : List ℚ) : ℚ := l.sum

/-- Mean of a numeric column (pandas `.mean()`; the callers only use it on
nonempty columns, where `sum / length` is the pandas value). -/
def qMean (l : List ℚ) : ℚ := l.sum / l.length

/-- Minimum of a numeric column (pandas `.min()`; 0 on the empty column,
which the callers never hit). -/
def qMinimum : List ℚ → ℚ
  | [] => 0
  | h :: t => t.foldl min h

/-- Maximum of a numeric column (pandas `.max()`). -/
def qMaximum : List ℚ → ℚ
  | [] => 0
  | h :: t => t.foldl max h

/-- The derived climate indicator bundle of `_extract_climate_data`. -/
structure ClimateData where
  avg_temp : ℚ
  min_temp : ℚ
  max_temp : ℚ
  annual_rainfall : ℚ
  drought_risk : Bool
  frost_risk : Bool
deriving DecidableEq

/-- Default indicators used when data is missing
(`crop_recommender.py` lines 492-499). -/
def defaultClimate : ClimateData :=
  ⟨20, 5, 35, 800, false, false⟩

/-- `historical_df['rain_sum'] < 1`, the dry-day boolean column. -/
def dryDay (rain : List ℚ) : List Bool :=
  rain.map (fun q => decide (q < 1))

/-- `dry_day.rolling(window=15, min_periods=15).sum() >= 13`:
position `j` carries the count over the trailing 15-entry window ending at
`j` once 15 observations are available; earlier positions are NaN in pandas
and `NaN >= 13` is False. -/
def drySpellCol (dry : List Bool) : List Bool :=
  (List.range dry.length).map
    (fun j => if 14 ≤ j then decide (13 ≤ ((dry.drop (j - 14)).take 15).count true) else false)

/-- Store a boolean pandas column as 0/1 rationals. -/
def boolCol (bs : List Bool) : List ℚ :=
  bs.map (fun b => if b then 1 else 0)

/-- Embedding of `CropRecommender._extract_climate_data`
(`crop_recommender.py` lines 482-524).  Returns the indicator bundle and the
historical frame, which the source mutates in place by assigning the
`dry_day` and `dry_spell` columns. -/
def extract_climate_data (df : DataFrame) : ClimateData × DataFrame :=
  if df.isEmpty then (defaultClimate, df)
  else
    let c1 := match df.getCol "temp_avg" with
      | some v => { defaultClimate with avg_temp := qMean v }
      | none => defaultClimate
    let c2 := match df.getCol "temp_min" with
      | some v => { c1 with
          min_temp := qMinimum v,
          frost_risk := decide (5 < v.countP (fun q => decide (q < 0))) }
      | none => c1
    let c3 := match df.getCol "temp_max" with
      | some v => { c2 with max_temp := qMaximum v }
      | none => c2
    match df.getCol "rain_sum" with
    | some v =>
      let c4 := { c3 with annual_rainfall := qSum v }
      if 30 < df.nrows then
        let df1 := df.setCol "dry_day" (boolCol (dryDay v))
        let df2 := df1.setCol "dry_spell" (boolCol (drySpellCol (dryDay v)))
        ({ c4 with drought_risk := (drySpellCol (dryDay v)).any id }, df2)
      else (c4, df)
    | none => (c3, df)

/-- The spec's drought condition: some trailing 15-day window, all 15
observations present, has at least 13 days with `rain_sum < 1`. -/
def hasDrySpellWindow (rain : List ℚ) : Prop :=
  ∃ i, i + 15 ≤ rain.length ∧ 13 ≤ ((rain.drop i).take 15).countP (fun q => decide (q < 1))

end FarmCore

namespace FarmCore

theorem lookupCol_replaceCol_self (cols : List (String × List ℚ)) (n : String) (v : List ℚ) :
    lookupCol (replaceCol cols n v) n = some v := by
  induction cols with
  | nil => simp [replaceCol, lookupCol]
  | cons p rest ih =>
    obtain ⟨m, w⟩ := p
    by_cases h : m = n <;> simp [replaceCol, lookupCol, h, ih]

theorem lookupCol_replaceCol_ne (cols : List (String × List ℚ)) (n m : String) (v : List ℚ)
    (h : m ≠ n) : lookupCol (replaceCol cols n v) m = lookupCol cols m := by
  induction cols with
  | nil => simp [replaceCol, lookupCol, Ne.symm h]
  | cons p rest ih =>
    obtain ⟨k, w⟩ := p
    by_cases hk : k = n
    · subst hk
      have hkm : ¬k = m := fun hh => h hh.symm
      simp [replaceCol, lookupCol, hkm]
    · simp [replaceCol, lookupCol, hk, ih]

theorem replaceCol_of_lookup (cols : List (String × List ℚ)) (n : String) (v : List ℚ)
    (h : lookupCol cols n = some v) : replaceCol cols n v = cols := by
  induction cols with
  | nil => simp [lookupCol] at h
  | cons p rest ih =>
    obtain ⟨m, w⟩ := p
    by_cases hm : m = n
    · subst hm
      simp [lookupCol] at h
      simp [replaceCol, h]
    · simp [lookupCol, hm] at h
      simp [replaceCol, hm, ih h]

theorem replaceCol_ne_nil (cols : List (String × List ℚ)) (n : String) (v : List ℚ) :
    replaceCol cols n v ≠ [] := by
  cases cols with
  | nil => simp [replaceCol]
  | cons p rest =>
    obtain ⟨m, w⟩ := p
    by_cases h : m = n <;> simp [replaceCol, h]

theorem getCol_setCol_self (df : DataFrame) (n : String) (v : List ℚ) :
    (df.setCol n v).getCol n = some v :=
  lookupCol_replaceCol_self df.columns n v

theorem getCol_setCol_ne (df : DataFrame) (n m : String) (v : List ℚ) (h : m ≠ n) :
    (df.setCol n v).getCol m = df.getCol m :=
  lookupCol_replaceCol_ne df.columns n m v h

theorem setCol_of_getCol (df : DataFrame) (n : String) (v : List ℚ)
    (h : df.getCol n = some v) : df.setCol n v = df := by
  cases df with
  | mk cols nr => simp [DataFrame.setCol, replaceCol_of_lookup cols n v h]

theorem nrows_setCol (df : DataFrame) (n : String) (v : List ℚ) :
    (df.setCol n v).nrows = df.nrows := rfl

theorem isEmpty_setCol (df : DataFrame) (n : String) (v : List ℚ) (h : df.nrows ≠ 0) :
    (df.setCol n v).isEmpty = false := by
  simp [DataFrame.isEmpty, DataFrame.setCol, h, List.isEmpty_iff, replaceCol_ne_nil]

end FarmCore

namespace FarmCore

theorem count_dryDay (rain : List ℚ) (i : ℕ) :
    (((dryDay rain).drop i).take 15).count true
      = ((rain.drop i).take 15).countP (fun q => decide (q < 1)) := by
  simp [dryDay, ← List.map_drop, ← List.map_take, List.count_eq_countP, List.countP_map]
  rfl

theorem length_dryDay (rain : List ℚ) : (dryDay rain).length = rain.length := by
  simp [dryDay]

theorem any_map_id {α : Type} (l : List α) (f : α → Bool) : (l.map f).any id = l.any f := by
  induction l with
  | nil => rfl
  | cons a t ih => simp [ih]

theorem any_drySpellCol_iff (rain : List ℚ) :
    ((drySpellCol (dryDay rain)).any id = true) ↔ hasDrySpellWindow rain := by
  rw [drySpellCol, any_map_id, List.any_eq_true]
  constructor
  · rintro ⟨j, hj, hcond⟩
    rw [List.mem_range, length_dryDay] at hj
    by_cases h14 : 14 ≤ j
    · rw [if_pos h14, decide_eq_true_iff] at hcond
      refine ⟨j - 14, by omega, ?_⟩
      rw [← count_dryDay]
      exact hcond
    · rw [if_neg h14] at hcond
      exact absurd hcond (by simp)
  · rintro ⟨i, hi, hc⟩
    refine ⟨i + 14, ?_, ?_⟩
    · rw [List.mem_range, length_dryDay]; omega
    · rw [if_pos (by omega), decide_eq_true_iff]
      have hsub : i + 14 - 14 = i := by omega
      rw [hsub, count_dryDay]
      exact hc

theorem columns_ne_nil_of_getCol (df : DataFrame) (n : String) (v : List ℚ)
    (h : df.getCol n = some v) : df.columns ≠ [] := by
  intro hnil
  rw [DataFrame.getCol, hnil] at h
  simp [lookupCol] at h

theorem isEmpty_false_of (df : DataFrame) (n : String) (v : List ℚ)
    (h : df.getCol n = some v) (hn : df.nrows ≠ 0) : df.isEmpty = false := by
  simp [DataFrame.isEmpty, hn, List.isEmpty_iff, columns_ne_nil_of_getCol df n v h]

theorem drought_risk_eq_any (df : DataFrame) (v : List ℚ)
    (hr : df.getCol "rain_sum" = some v) (h30 : 30 < df.nrows) :
    (extract_climate_data df).1.drought_risk = (drySpellCol (dryDay v)).any id := by
  have hne : df.isEmpty = false := isEmpty_false_of df _ v hr (by omega)
  unfold extract_climate_data
  rw [hne, hr]
  cases hA : df.getCol "temp_avg" <;>
    cases hMn : df.getCol "temp_min" <;>
    cases hMx : df.getCol "temp_max" <;>
    simp [hA, hMn, hMx, h30]

/-- C1 (counterexample): a 20-day all-dry record sequence has a full
trailing 15-day window in which all 15 days (hence at least 13) have
`rain_sum < 1`, yet the summarizer leaves `drought_risk` false, because the
source only runs the drought computation when the table has more than 30
rows.  This refutes the claim that `drought_risk` is true if and only if
such a window exists, for every historical record sequence. -/
theorem drought_risk_claim_counterexample :
    ¬(((extract_climate_data
          ⟨[("rain_sum", List.replicate 20 (0 : ℚ))], 20⟩).1.drought_risk = true)
       ↔ hasDrySpellWindow (List.replicate 20 (0 : ℚ))) := by
  intro h
  have hw : hasDrySpellWindow (List.replicate 20 (0 : ℚ)) := ⟨0, by decide, by decide⟩
  exact absurd (h.mpr hw) (by decide)

/-- C1 (amended): for every historical table with a `rain_sum` column and
more than 30 rows, the Climate Summarizer sets `drought_risk` to true if and
only if there exists a trailing rolling 15-day window (with all 15
observations present) in which at least 13 days have `rain_sum < 1`mm; with
30 or fewer rows the drought computation is skipped and the flag stays
false.  The spec's 365-day example (days 100-120 dry) then yields true. -/
theorem drought_risk_iff_window (df : DataFrame) (v : List ℚ)
    (hr : df.getCol "rain_sum" = some v) (h30 : 30 < df.nrows) :
    ((extract_climate_data df).1.drought_risk = true ↔ hasDrySpellWindow v) := by
  rw [drought_risk_eq_any df v hr h30]
  exact any_drySpellCol_iff v

set_option maxRecDepth 20000 in
/-- Witness for C1 (amended): the spec's 365-day example, `rain_sum = 0` on
days 100-120 and 2mm elsewhere, yields `drought_risk = true`. -/
theorem drought_risk_iff_window_witness :
    (extract_climate_data
      ⟨[("rain_sum",
          (List.range 365).map (fun d => if 100 ≤ d ∧ d ≤ 120 then (0 : ℚ) else 2))],
        365⟩).1.drought_risk = true := by
  apply (drought_risk_iff_window
    ⟨[("rain_sum",
        (List.range 365).map (fun d => if 100 ≤ d ∧ d ≤ 120 then (0 : ℚ) else 2))],
      365⟩
    ((List.range 365).map (fun d => if 100 ≤ d ∧ d ≤ 120 then (0 : ℚ) else 2))
    rfl (by norm_num)).mpr
  exact ⟨100, by decide, by decide⟩

/-- C7: for every non-empty historical table with a `temp_min` column, the
Climate Summarizer sets `frost_risk` to true if and only if the number of
days with `temp_min < 0` is strictly greater than 5. -/
theorem frost_risk_iff (df : DataFrame) (v : List ℚ)
    (hne : df.isEmpty = false) (hmin : df.getCol "temp_min" = some v) :
    ((extract_climate_data df).1.frost_risk = true ↔
      5 < v.countP (fun q => decide (q < 0))) := by
  unfold extract_climate_data
  rw [hne, hmin]
  cases hA : df.getCol "temp_avg" <;>
    cases hMx : df.getCol "temp_max" <;>
    cases hR : df.getCol "rain_sum" <;>
    simp [hA, hMx, hR] <;>
    split <;>
    simp

/-- Witness for C7: six sub-zero `temp_min` days give `frost_risk = true`;
five give `frost_risk = false`. -/
theorem frost_risk_iff_witness :
    ((extract_climate_data
        ⟨[("temp_min", [-1, -2, -3, -4, -5, -6])], 6⟩).1.frost_risk = true)
    ∧ ((extract_climate_data
        ⟨[("temp_min", [-1, -2, -3, -4, -5])], 5⟩).1.frost_risk = false) := by
  constructor
  · exact (frost_risk_iff
      ⟨[("temp_min", [-1, -2, -3, -4, -5, -6])], 6⟩ [-1, -2, -3, -4, -5, -6]
      (by decide) rfl).mpr (by decide)
  · have h := frost_risk_iff
      ⟨[("temp_min", [-1, -2, -3, -4, -5])], 5⟩ [-1, -2, -3, -4, -5] (by decide) rfl
    rw [← Bool.not_eq_true]
    intro hb
    exact absurd (h.mp hb) (by decide)

end FarmCore

namespace FarmCore

theorem climate_congr (df df' : DataFrame)
    (hE : df.isEmpty = df'.isEmpty) (hn : df.nrows = df'.nrows)
    (hA : df.getCol "temp_avg" = df'.getCol "temp_avg")
    (hMn : df.getCol "temp_min" = df'.getCol "temp_min")
    (hMx : df.getCol "temp_max" = df'.getCol "temp_max")
    (hR : df.getCol "rain_sum" = df'.getCol "rain_sum") :
    (extract_climate_data df).1 = (extract_climate_data df').1 := by
  unfold extract_climate_data
  rw [hE, hn, hA, hMn, hMx, hR]
  cases hE2 : df'.isEmpty
  · cases hA2 : df'.getCol "temp_avg" <;>
      cases hMn2 : df'.getCol "temp_min" <;>
      cases hMx2 : df'.getCol "temp_max" <;>
      cases hR2 : df'.getCol "rain_sum" <;>
      simp <;>
      split <;>
      rfl
  · simp

theorem frame_after_extract (df : DataFrame) (v : List ℚ)
    (hr : df.getCol "rain_sum" = some v) (h30 : 30 < df.nrows) :
    (extract_climate_data df).2
      = (df.setCol "dry_day" (boolCol (dryDay v))).setCol "dry_spell"
          (boolCol (drySpellCol (dryDay v))) := by
  have hne : df.isEmpty = false := isEmpty_false_of df _ v hr (by omega)
  unfold extract_climate_data
  rw [hne, hr]
  cases hA : df.getCol "temp_avg" <;>
    cases hMn : df.getCol "temp_min" <;>
    cases hMx : df.getCol "temp_max" <;>
    simp [h30]

theorem frame_after_extract_id (df : DataFrame)
    (h : df.isEmpty = true ∨ df.getCol "rain_sum" = none ∨ ¬(30 < df.nrows)) :
    (extract_climate_data df).2 = df := by
  unfold extract_climate_data
  rcases h with h | h | h
  · rw [h]; rfl
  · rw [h]
    cases hE : df.isEmpty <;>
      cases hA : df.getCol "temp_avg" <;>
      cases hMn : df.getCol "temp_min" <;>
      cases hMx : df.getCol "temp_max" <;>
      simp
  · cases hE : df.isEmpty <;>
      cases hA : df.getCol "temp_avg" <;>
      cases hMn : df.getCol "temp_min" <;>
      cases hMx : df.getCol "temp_max" <;>
      cases hR : df.getCol "rain_sum" <;>
      simp [h]

/-- C9: when the historical table has a `rain_sum` column and more than 30
rows, the climate extraction updates the caller's table itself (state
passing embeds the in-place pandas assignment): afterwards the table carries
a `dry_day` and a `dry_spell` column holding the computed indicator values,
the row count is unchanged, and every column other than those two reads
exactly as before. -/
theorem extract_frame_effect (df : DataFrame) (v : List ℚ)
    (hr : df.getCol "rain_sum" = some v) (h30 : 30 < df.nrows) :
    ((extract_climate_data df).2.getCol "dry_day" = some (boolCol (dryDay v)))
    ∧ ((extract_climate_data df).2.getCol "dry_spell"
        = some (boolCol (drySpellCol (dryDay v))))
    ∧ ((extract_climate_data df).2.nrows = df.nrows)
    ∧ (∀ name : String, name ≠ "dry_day" → name ≠ "dry_spell" →
        (extract_climate_data df).2.getCol name = df.getCol name) := by
  rw [frame_after_extract df v hr h30]
  refine ⟨?_, ?_, ?_, ?_⟩
  · rw [getCol_setCol_ne _ _ _ _ (by decide)]
    exact getCol_setCol_self ..
  · exact getCol_setCol_self ..
  · rw [nrows_setCol, nrows_setCol]
  · intro name h1 h2
    rw [getCol_setCol_ne _ _ _ _ h2, getCol_setCol_ne _ _ _ _ h1]

/-- Witness for C9: a 31-row table whose only column is `rain_sum` gains the
`dry_day` column and keeps its `rain_sum` column unchanged. -/
theorem extract_frame_effect_witness :
    ((extract_climate_data ⟨[("rain_sum", List.replicate 31 (2 : ℚ))], 31⟩).2.getCol "dry_day"
        = some (boolCol (dryDay (List.replicate 31 (2 : ℚ)))))
    ∧ ((extract_climate_data ⟨[("rain_sum", List.replicate 31 (2 : ℚ))], 31⟩).2.getCol "rain_sum"
        = some (List.replicate 31 (2 : ℚ))) := by
  have h := extract_frame_effect ⟨[("rain_sum", List.replicate 31 (2 : ℚ))], 31⟩
    (List.replicate 31 (2 : ℚ)) rfl (by norm_num)
  exact ⟨h.1, (h.2.2.2 "rain_sum" (by decide) (by decide)).trans rfl⟩

/-- C5: the Climate Summarizer is idempotent and keeps no hidden state:
running the extraction again on the table returned by a first run yields a
bit-identical indicator bundle and leaves the table unchanged, so repeated
calls on the same input agree. -/
theorem extract_idempotent (df : DataFrame) :
    extract_climate_data (extract_climate_data df).2
      = ((extract_climate_data df).1, (extract_climate_data df).2) := by
  by_cases hcase : ∃ v, df.getCol "rain_sum" = some v ∧ 30 < df.nrows ∧ df.isEmpty = false
  · obtain ⟨v, hr, h30, hne⟩ := hcase
    have h2 := frame_after_extract df v hr h30
    set a := boolCol (dryDay v)
    set b := boolCol (drySpellCol (dryDay v))
    set df2 := (df.setCol "dry_day" a).setCol "dry_spell" b with hdf2
    have hn2 : df2.nrows = df.nrows := by rw [hdf2, nrows_setCol, nrows_setCol]
    have hE2 : df2.isEmpty = false := by
      rw [hdf2]
      exact isEmpty_setCol _ _ _ (by rw [nrows_setCol]; omega)
    have hA2 : df2.getCol "temp_avg" = df.getCol "temp_avg" := by
      rw [hdf2, getCol_setCol_ne _ _ _ _ (by decide), getCol_setCol_ne _ _ _ _ (by decide)]
    have hMn2 : df2.getCol "temp_min" = df.getCol "temp_min" := by
      rw [hdf2, getCol_setCol_ne _ _ _ _ (by decide), getCol_setCol_ne _ _ _ _ (by decide)]
    have hMx2 : df2.getCol "temp_max" = df.getCol "temp_max" := by
      rw [hdf2, getCol_setCol_ne _ _ _ _ (by decide), getCol_setCol_ne _ _ _ _ (by decide)]
    have hR2 : df2.getCol "rain_sum" = some v := by
      rw [hdf2, getCol_setCol_ne _ _ _ _ (by decide), getCol_setCol_ne _ _ _ _ (by decide), hr]
    have hdd : df2.getCol "dry_day" = some a := by
      rw [hdf2, getCol_setCol_ne _ _ _ _ (by decide)]
      exact getCol_setCol_self ..
    have hds : df2.getCol "dry_spell" = some b := by
      rw [hdf2]
      exact getCol_setCol_self ..
    have hfst : (extract_climate_data df2).1 = (extract_climate_data df).1 :=
      climate_congr df2 df (by rw [hE2, hne]) hn2 hA2 hMn2 hMx2 (by rw [hR2, hr])
    have hsnd : (extract_climate_data df2).2 = df2 := by
      rw [frame_after_extract df2 v hR2 (by omega)]
      rw [setCol_of_getCol df2 "dry_day" a hdd, setCol_of_getCol df2 "dry_spell" b hds]
    rw [h2]
    exact Prod.ext hfst (by simpa using hsnd)
  · push_neg at hcase
    have h2 : (extract_climate_data df).2 = df := by
      apply frame_after_extract_id
      by_cases hE : df.isEmpty = true
      · exact Or.inl hE
      · cases hR : df.getCol "rain_sum" with
        | none => exact Or.inr (Or.inl rfl)
        | some v =>
          have := hcase v hR
          by_cases h30 : 30 < df.nrows
          · exact absurd (eq_false_of_ne_true hE) (this h30)
          · exact Or.inr (Or.inr h30)
    have heta : ((extract_climate_data df).1, (extract_climate_data df).2)
        = extract_climate_data df := rfl
    rw [heta, h2]

end FarmCore

namespace FarmCore

/-- Character-list test used to embed the Python substring operator. -/
def leadsWith : List Char → List Char → Bool
  | [], _ => true
  | _ :: _, [] => false
  | a :: as, b :: bs => a == b && leadsWith as bs

/-- Whether `needle` occurs contiguously inside `hay`. -/
def containsChars (needle : List Char) : List Char → Bool
  | [] => needle.isEmpty
  | c :: rest => leadsWith needle (c :: rest) || containsChars needle rest

/-- The Python expression `needle in hay` on strings. -/
def strContains (hay needle : String) : Bool :=
  containsChars needle.data hay.data

/-- One crop entry of the static catalog (`crop_recommender.py` lines
16-182).  The `soil_pH` range is carried by the source but never read by the
scoring code, so it is omitted here. -/
structure CropInfo where
  min_temp : ℚ
  max_temp : ℚ
  optimal_temp : ℚ
  min_rainfall : ℚ
  max_rainfall : ℚ
  drought_tolerant : Bool
  frost_tolerant : Bool
  growing_season : String
deriving DecidableEq

/-- The crop catalog, in the source's dict insertion order. -/
def crop_data : List (String × CropInfo) :=
  [("Corn", ⟨10, 35, 25, 500, 1200, false, false, "Summer"⟩),
   ("Wheat", ⟨3, 30, 20, 350, 1000, true, true, "Winter/Spring"⟩),
   ("Soybeans", ⟨10, 38, 27, 450, 1200, false, false, "Summer"⟩),
   ("Rice", ⟨16, 40, 30, 900, 2500, false, false, "Summer"⟩),
   ("Cotton", ⟨15, 40, 30, 500, 1500, true, false, "Summer"⟩),
   ("Potatoes", ⟨7, 30, 20, 500, 1000, false, false, "Spring/Summer"⟩),
   ("Tomatoes", ⟨10, 35, 25, 400, 1000, false, false, "Summer"⟩),
   ("Lettuce", ⟨5, 25, 18, 300, 800, false, true, "Spring/Fall"⟩),
   ("Carrots", ⟨7, 30, 18, 300, 900, false, true, "Spring/Fall"⟩),
   ("Barley", ⟨4, 30, 18, 300, 1000, true, true, "Spring/Winter"⟩),
   ("Oats", ⟨4, 32, 20, 350, 1000, true, true, "Spring"⟩),
   ("Sunflower", ⟨8, 35, 25, 300, 1000, true, false, "Summer"⟩),
   ("Alfalfa", ⟨5, 35, 25, 400, 1200, true, true, "Perennial"⟩),
   ("Sweet Corn", ⟨10, 35, 25, 500, 1200, false, false, "Summer"⟩),
   ("Peas", ⟨5, 24, 18, 350, 800, false, true, "Spring/Fall"⟩)]

/-- Embedding of `_calculate_temperature_score`
(`crop_recommender.py` lines 570-605). -/
def calculate_temperature_score
    (avg_temp min_temp max_temp crop_min crop_optimal crop_max : ℚ) : ℚ :=
  if max_temp < crop_min ∨ min_temp > crop_max then 0.1
  else
    let optimal_score := 1.0 - min (|avg_temp - crop_optimal| / 15.0) 1.0
    let range_penalty :=
      (if min_temp < crop_min then 0.3 * (crop_min - min_temp) / crop_min else 0)
        + (if max_temp > crop_max then 0.3 * (max_temp - crop_max) / crop_max else 0)
    max 0.1 (min (optimal_score * (1.0 - range_penalty)) 1.0)

/-- Embedding of `_calculate_rainfall_score`
(`crop_recommender.py` lines 607-646). -/
def calculate_rainfall_score (annual_rainfall crop_min_rain crop_max_rain : ℚ) : ℚ :=
  if annual_rainfall < crop_min_rain * 0.5 then 0.3
  else if annual_rainfall > crop_max_rain * 1.5 then 0.4
  else if crop_min_rain ≤ annual_rainfall ∧ annual_rainfall ≤ crop_max_rain then
    let range_size := crop_max_rain - crop_min_rain
    let position :=
      if range_size > 0 then (annual_rainfall - crop_min_rain) / range_size else 0.5
    let position_score := 1.0 - |0.5 - position|
    0.8 + position_score * 0.2
  else if annual_rainfall < crop_min_rain then
    let shortfall_ratio := annual_rainfall / crop_min_rain
    0.4 + shortfall_ratio * 0.4
  else
    let excess_ratio := min (crop_max_rain / annual_rainfall) 1.0
    0.4 + excess_ratio * 0.4

/-- Season selection from the calendar month and hemisphere
(`recommend_crops` lines 208-230; the month comes from the wall clock in the
source and is passed explicitly here). -/
def currentSeason (month : ℕ) (lat : ℚ) : String :=
  if 0 < lat then
    if 3 ≤ month ∧ month ≤ 5 then "Spring"
    else if 6 ≤ month ∧ month ≤ 8 then "Summer"
    else if 9 ≤ month ∧ month ≤ 11 then "Fall"
    else "Winter"
  else
    if 3 ≤ month ∧ month ≤ 5 then "Fall"
    else if 6 ≤ month ∧ month ≤ 8 then "Winter"
    else if 9 ≤ month ∧ month ≤ 11 then "Spring"
    else "Summer"

/-- Display-only stand-in for Python's one-decimal float formatting inside
reason strings; no claim depends on the rendered digits. -/
def fmt1 (q : ℚ) : String := toString q

/-- Reason sentences for one crop (`recommend_crops` lines 270-303); the
scores passed in are the drought/frost-adjusted ones, as in the source. -/
def reasonsFor (climate : ClimateData) (info : CropInfo)
    (temp_score rainfall_score : ℚ) : List String :=
  let r1 :=
    if 0.8 < temp_score then
      "Temperature range (" ++ fmt1 climate.min_temp ++ "°C to "
        ++ fmt1 climate.max_temp ++ "°C) is ideal"
    else if 0.6 < temp_score then "Temperature range is suitable"
    else if 0.4 < temp_score then "Temperature range is acceptable but not optimal"
    else "Temperature range may be challenging"
  let r2 :=
    if 0.8 < rainfall_score then "Precipitation levels are ideal"
    else if 0.6 < rainfall_score then "Precipitation levels are suitable"
    else if 0.4 < rainfall_score then "Precipitation levels are acceptable with proper irrigation"
    else "Irrigation will be necessary"
  let l1 := [r1, r2]
  let l2 :=
    if climate.drought_risk then
      l1 ++ [if info.drought_tolerant then "Drought tolerance is advantageous in this climate"
             else "Drought risk requires careful water management"]
    else l1
  if climate.frost_risk then
    l2 ++ [if info.frost_tolerant then "Frost tolerance is beneficial in this climate"
           else "Frost protection measures may be needed"]
  else l2

/-- A scored in-season crop: the percentage score together with its reason
sentences (`recommend_crops` lines 240-303). -/
structure ScoredCrop where
  name : String
  score : ℚ
  reasons : List String
deriving DecidableEq

/-- Score one crop against the climate indicators
(`recommend_crops` lines 240-268). -/
def scoreCrop (climate : ClimateData) (name : String) (info : CropInfo) : ScoredCrop :=
  let temp0 := calculate_temperature_score climate.avg_temp climate.min_temp
    climate.max_temp info.min_temp info.optimal_temp info.max_temp
  let rain0 := calculate_rainfall_score climate.annual_rainfall
    info.min_rainfall info.max_rainfall
  let rainfall_score :=
    if climate.drought_risk && !info.drought_tolerant then rain0 * 0.7 else rain0
  let temp_score :=
    if climate.frost_risk && !info.frost_tolerant then temp0 * 0.8 else temp0
  let overall_score := temp_score * 0.6 + rainfall_score * 0.4
  ⟨name, overall_score * 100, reasonsFor climate info temp_score rainfall_score⟩

/-- The in-season filter (`recommend_crops` line 238): a crop is skipped iff
the season string does not occur in its `growing_season` and the latter is
not `Perennial`. -/
def inSeason (season : String) (info : CropInfo) : Bool :=
  strContains info.growing_season season || info.growing_season == "Perennial"

/-- Scores of the in-season catalog crops, in catalog order. -/
def scoredCrops (climate : ClimateData) (season : String) : List ScoredCrop :=
  (crop_data.filter (fun p => inSeason season p.2)).map (fun p => scoreCrop climate p.1 p.2)

/-- Descending-score order used by `sorted(..., key=score, reverse=True)`. -/
def scoreGE (a b : ScoredCrop) : Prop := b.score ≤ a.score

instance : DecidableRel scoreGE :=
  fun a b => inferInstanceAs (Decidable (b.score ≤ a.score))

instance : IsTotal ScoredCrop scoreGE :=
  ⟨fun a b => le_total b.score a.score⟩

instance : IsTrans ScoredCrop scoreGE :=
  ⟨fun _ _ _ hab hbc => le_trans hbc hab⟩

/-- One output recommendation record. -/
structure Recommendation where
  crop : String
  confidence : ℚ
  reasons : String
deriving DecidableEq

/-- Build the returned record (`recommend_crops` lines 311-315). -/
def mkRec (c : ScoredCrop) : Recommendation :=
  ⟨c.name, c.score, String.intercalate ". " c.reasons⟩

/-- Selection of the final recommendation list
(`recommend_crops` lines 305-324): stable sort descending by score, keep the
top five with score at least 40, and fall back to the single top crop
annotated as experimental when none qualifies. -/
def recommendationsFrom (scored : List ScoredCrop) : List Recommendation :=
  let sorted_crops := List.insertionSort scoreGE scored
  let recs := ((sorted_crops.take 5).filter (fun c => decide (40 ≤ c.score))).map mkRec
  if recs.isEmpty then
    match sorted_crops with
    | [] => recs
    | top :: _ =>
      [⟨top.name, top.score,
        String.intercalate ". " top.reasons
          ++ ". Consider as experimental with proper adaptations."⟩]
  else recs

/-- The forecast indicator bundle of `_extract_forecast_climate`
(`crop_recommender.py` lines 526-568). -/
structure ForecastClimate where
  avg_temp : ℚ
  min_temp : ℚ
  max_temp : ℚ
  total_rainfall : ℚ
  forecast_days : ℕ
  high_temp_days : ℕ
  low_temp_days : ℕ
  rainy_days : ℕ
deriving DecidableEq

/-- Embedding of `_extract_forecast_climate`.  The unguarded accesses to the
`temp` column raise a pandas `KeyError` on a non-empty frame without that
column; this is the failure path of the surrounding try block, embedded as
`Except.error`.  The datetime `time` column is modelled as integer day
numbers, so `.dt.date.nunique()` counts distinct floors. -/
def extract_forecast_climate (forecast_df : DataFrame) :
    Except String ForecastClimate :=
  if forecast_df.isEmpty then .ok ⟨20, 10, 30, 0, 0, 0, 0, 0⟩
  else
    match forecast_df.getCol "temp" with
    | none => .error "KeyError: temp"
    | some temp =>
      let fdays : ℕ :=
        match forecast_df.getCol "time" with
        | some t => ((t.map (fun q => ⌊q⌋)).dedup).length
        | none => 0
      let rainPair : ℚ × ℕ :=
        match forecast_df.getCol "rain" with
        | some r => (qSum r, r.countP (fun q => decide (0 < q)))
        | none => (0, 0)
      .ok ⟨qMean temp, qMinimum temp, qMaximum temp, rainPair.1, fdays,
        temp.countP (fun q => decide (30 < q)),
        temp.countP (fun q => decide (q < 5)), rainPair.2⟩

/-- The body of the `try` block of `recommend_crops`
(`crop_recommender.py` lines 201-326): any internal failure surfaces as
`Except.error` and is handled by the caller's fallback. -/
def recommendCropsCore (historical_df forecast_df : DataFrame)
    (month : ℕ) (lat : ℚ) : Except String (List Recommendation) :=
  let climate_data := (extract_climate_data historical_df).1
  match extract_forecast_climate forecast_df with
  | .error e => .error e
  | .ok _ =>
    .ok (recommendationsFrom (scoredCrops climate_data (currentSeason month lat)))

/-- Embedding of `recommend_crops` (`crop_recommender.py` lines 186-335):
the try body, with the catch-all `except` replaced by the documented
fallback recommendation. -/
def recommend_crops (historical_df forecast_df : DataFrame)
    (month : ℕ) (lat : ℚ) : List Recommendation :=
  match recommendCropsCore historical_df forecast_df month lat with
  | .ok recs => recs
  | .error _ =>
    [⟨"General crops", 50,
      "Based on limited data analysis. Consider local successful crops as a guide."⟩]

end FarmCore

namespace FarmCore

theorem temp_score_bounds (a mn mx cmin copt cmax : ℚ) :
    0.1 ≤ calculate_temperature_score a mn mx cmin copt cmax
    ∧ calculate_temperature_score a mn mx cmin copt cmax ≤ 1 := by
  unfold calculate_temperature_score
  split
  · norm_num
  · exact ⟨le_max_left .., max_le (by norm_num) (le_trans (min_le_right ..) (by norm_num))⟩

theorem rain_score_bounds (r rmin rmax : ℚ) (h0 : 0 < rmin) (h1 : rmin ≤ rmax) :
    (0.3 ≤ calculate_rainfall_score r rmin rmax
      ∧ calculate_rainfall_score r rmin rmax ≤ 1)
    ∧ (rmin ≤ r → r ≤ rmax →
        0.8 ≤ calculate_rainfall_score r rmin rmax
        ∧ calculate_rainfall_score r rmin rmax ≤ 1) := by
  have hrx0 : 0 < rmax := lt_of_lt_of_le h0 h1
  simp only [calculate_rainfall_score]
  by_cases hb1 : r < rmin * 0.5
  · rw [if_pos hb1]
    refine ⟨⟨by norm_num, by norm_num⟩, fun hlo _ => absurd hb1 (by push_neg; nlinarith)⟩
  · rw [if_neg hb1]
    by_cases hb2 : r > rmax * 1.5
    · rw [if_pos hb2]
      refine ⟨⟨by norm_num, by norm_num⟩, fun _ hhi => absurd hb2 (by push_neg; nlinarith)⟩
    · rw [if_neg hb2]
      by_cases hb3 : rmin ≤ r ∧ r ≤ rmax
      · rw [if_pos hb3]
        obtain ⟨hlo, hhi⟩ := hb3
        by_cases hrs : rmax - rmin > 0
        · rw [if_pos hrs]
          have hp0 : 0 ≤ (r - rmin) / (rmax - rmin) := div_nonneg (by linarith) (le_of_lt hrs)
          have hp1 : (r - rmin) / (rmax - rmin) ≤ 1 := (div_le_one hrs).mpr (by linarith)
          have habs : |0.5 - (r - rmin) / (rmax - rmin)| ≤ 0.5 :=
            abs_le.mpr ⟨by linarith, by linarith⟩
          have habs0 : (0 : ℚ) ≤ |0.5 - (r - rmin) / (rmax - rmin)| := abs_nonneg _
          constructor
          · constructor <;> nlinarith
          · exact fun _ _ => ⟨by nlinarith, by nlinarith⟩
        · rw [if_neg hrs]
          norm_num
      · rw [if_neg hb3]
        by_cases hb4 : r < rmin
        · rw [if_pos hb4]
          have hge : rmin * 0.5 ≤ r := not_lt.mp hb1
          have hr0 : 0 ≤ r := by nlinarith
          have hq0 : 0 ≤ r / rmin := div_nonneg hr0 h0.le
          have hq1 : r / rmin ≤ 1 := (div_le_one h0).mpr (le_of_lt hb4)
          refine ⟨⟨by nlinarith, by nlinarith⟩, fun hlo _ => absurd hb4 (by push_neg; exact hlo)⟩
        · rw [if_neg hb4]
          have hge : rmin ≤ r := not_lt.mp hb4
          have hgt : rmax < r := by
            rcases not_and_or.mp hb3 with h | h
            · exact absurd hge h
            · exact not_le.mp h
          have hr0 : 0 < r := lt_trans hrx0 hgt
          have hm0 : (0 : ℚ) ≤ min (rmax / r) 1.0 :=
            le_min (div_nonneg hrx0.le hr0.le) (by norm_num)
          have hm1 : min (rmax / r) 1.0 ≤ 1 := le_trans (min_le_right ..) (by norm_num)
          refine ⟨⟨by nlinarith, by nlinarith⟩, fun _ hhi => absurd hgt (by push_neg; exact hhi)⟩

end FarmCore

namespace FarmCore

/-- C3: for every crop profile in the catalog and every climate indicator
values, the temperature score lies in [0.1, 1.0] and the rainfall score lies
in [0.3, 1.0]; when the annual rainfall lies within the crop's
[min_rainfall, max_rainfall] range the rainfall score lies in [0.8, 1.0]. -/
theorem crop_score_bounds (p : String × CropInfo) (hp : p ∈ crop_data)
    (avgT minT maxT rain : ℚ) :
    (0.1 ≤ calculate_temperature_score avgT minT maxT
        p.2.min_temp p.2.optimal_temp p.2.max_temp
      ∧ calculate_temperature_score avgT minT maxT
        p.2.min_temp p.2.optimal_temp p.2.max_temp ≤ 1)
    ∧ (0.3 ≤ calculate_rainfall_score rain p.2.min_rainfall p.2.max_rainfall
      ∧ calculate_rainfall_score rain p.2.min_rainfall p.2.max_rainfall ≤ 1)
    ∧ (p.2.min_rainfall ≤ rain → rain ≤ p.2.max_rainfall →
        0.8 ≤ calculate_rainfall_score rain p.2.min_rainfall p.2.max_rainfall
        ∧ calculate_rainfall_score rain p.2.min_rainfall p.2.max_rainfall ≤ 1) := by
  have hpos : 0 < p.2.min_rainfall ∧ p.2.min_rainfall ≤ p.2.max_rainfall := by
    simp only [crop_data, List.mem_cons, List.not_mem_nil, or_false] at hp
    rcases hp with h|h|h|h|h|h|h|h|h|h|h|h|h|h|h <;> subst h <;> exact ⟨by norm_num, by norm_num⟩
  exact ⟨temp_score_bounds .., (rain_score_bounds rain _ _ hpos.1 hpos.2).1,
    (rain_score_bounds rain _ _ hpos.1 hpos.2).2⟩

/-- Witness for C3: the Corn profile with annual rainfall 850mm, inside its
[500, 1200] range, has a rainfall score in [0.8, 1.0]. -/
theorem crop_score_bounds_witness :
    (("Corn", (⟨10, 35, 25, 500, 1200, false, false, "Summer"⟩ : CropInfo)) ∈ crop_data)
    ∧ (0.8 ≤ calculate_rainfall_score 850 500 1200
        ∧ calculate_rainfall_score 850 500 1200 ≤ 1) := by
  have hmem : ("Corn", (⟨10, 35, 25, 500, 1200, false, false, "Summer"⟩ : CropInfo))
      ∈ crop_data := by simp [crop_data]
  exact ⟨hmem, (crop_score_bounds _ hmem 20 5 35 850).2.2 (by norm_num) (by norm_num)⟩

end FarmCore


namespace FarmCore

/-- C6: `recommend_crops` never propagates a failure to its caller: on every
input it either returns the successful result of its try body, or, when the
body fails, it returns exactly the documented fallback, a single
recommendation for General crops with confidence 50. -/
theorem recommend_crops_total_fallback (historical_df forecast_df : DataFrame)
    (month : ℕ) (lat : ℚ) :
    (∃ recs, recommendCropsCore historical_df forecast_df month lat = .ok recs
      ∧ recommend_crops historical_df forecast_df month lat = recs)
    ∨ (∃ e, recommendCropsCore historical_df forecast_df month lat = .error e
      ∧ recommend_crops historical_df forecast_df month lat
        = [⟨"General crops", 50,
            "Based on limited data analysis. Consider local successful crops as a guide."⟩]) := by
  cases h : recommendCropsCore historical_df forecast_df month lat with
  | ok recs => exact Or.inl ⟨recs, rfl, by unfold recommend_crops; rw [h]⟩
  | error e => exact Or.inr ⟨e, rfl, by unfold recommend_crops; rw [h]⟩

theorem scoredCrops_ne_nil (climate : ClimateData) (season : String) :
    scoredCrops climate season ≠ [] := by
  have hmem : ("Alfalfa", (⟨5, 35, 25, 400, 1200, true, true, "Perennial"⟩ : CropInfo))
      ∈ crop_data.filter (fun p => inSeason season p.2) := by
    rw [List.mem_filter]
    refine ⟨by simp [crop_data], ?_⟩
    simp [inSeason]
  intro hnil
  unfold scoredCrops at hnil
  rw [List.map_eq_nil_iff] at hnil
  rw [hnil] at hmem
  exact List.not_mem_nil _ hmem

theorem head_max_of_sorted (l : List ScoredCrop) (c : ScoredCrop) (t : List ScoredCrop)
    (h : List.insertionSort scoreGE l = c :: t) :
    ∀ x ∈ l, x.score ≤ c.score := by
  intro x hx
  have hperm : l.Perm (List.insertionSort scoreGE l) :=
    (List.perm_insertionSort scoreGE l).symm
  have hx2 : x ∈ c :: t := by
    rw [← h]
    exact hperm.mem_iff.mp hx
  have hsorted := List.sorted_insertionSort scoreGE l
  rw [h] at hsorted
  rcases List.mem_cons.mp hx2 with rfl | hxt
  · exact le_refl _
  · exact (List.sorted_cons.mp hsorted).1 x hxt

end FarmCore

namespace FarmCore

theorem recommendationsFrom_shape (scored : List ScoredCrop) (hne : scored ≠ []) :
    (recommendationsFrom scored).length ≤ 5
    ∧ (recommendationsFrom scored).Pairwise (fun a b => b.confidence ≤ a.confidence)
    ∧ ((∃ c ∈ scored, 40 ≤ c.score) →
        ∀ r ∈ recommendationsFrom scored, 40 ≤ r.confidence)
    ∧ ((∀ c ∈ scored, c.score < 40) →
        ∃ r, recommendationsFrom scored = [r]
          ∧ (∀ c ∈ scored, c.score ≤ r.confidence)
          ∧ ∃ s, r.reasons = s ++ ". Consider as experimental with proper adaptations.") := by
  obtain ⟨c, t, hct⟩ : ∃ c t, List.insertionSort scoreGE scored = c :: t := by
    cases hsort : List.insertionSort scoreGE scored with
    | nil =>
      have hperm := List.perm_insertionSort scoreGE scored
      rw [hsort] at hperm
      exact absurd hperm.symm.eq_nil hne
    | cons c t => exact ⟨c, t, rfl⟩
  have hmax := head_max_of_sorted scored c t hct
  by_cases hF : ((List.insertionSort scoreGE scored).take 5).filter
      (fun x => decide (40 ≤ x.score)) = []
  · -- the filtered top five is empty: the experimental fallback fires
    have hres : recommendationsFrom scored
        = [⟨c.name, c.score,
            String.intercalate ". " c.reasons
              ++ ". Consider as experimental with proper adaptations."⟩] := by
      unfold recommendationsFrom
      rw [hct] at hF ⊢
      dsimp only
      rw [hF, List.map_nil]
      rfl
    rw [hres]
    refine ⟨by norm_num, List.pairwise_singleton .., ?_, ?_⟩
    · rintro ⟨c0, hc0, h40⟩
      exfalso
      have hcs : (40 : ℚ) ≤ c.score := le_trans h40 (hmax c0 hc0)
      have hctake : c ∈ (List.insertionSort scoreGE scored).take 5 := by
        rw [hct]
        exact List.mem_cons_self ..
      have hcfil : c ∈ ((List.insertionSort scoreGE scored).take 5).filter
          (fun x => decide (40 ≤ x.score)) :=
        List.mem_filter.mpr ⟨hctake, by simpa using hcs⟩
      rw [hF] at hcfil
      exact List.not_mem_nil _ hcfil
    · intro _
      exact ⟨_, rfl, fun c0 hc0 => hmax c0 hc0,
        ⟨String.intercalate ". " c.reasons, rfl⟩⟩
  · -- at least one of the top five reaches 40
    have hres : recommendationsFrom scored
        = (((List.insertionSort scoreGE scored).take 5).filter
            (fun x => decide (40 ≤ x.score))).map mkRec := by
      unfold recommendationsFrom
      dsimp only
      rw [if_neg (by simp [List.isEmpty_iff, List.map_eq_nil_iff, hF])]
    rw [hres]
    have hsorted := List.sorted_insertionSort scoreGE scored
    have hsub : List.Sublist
        (((List.insertionSort scoreGE scored).take 5).filter
          (fun x => decide (40 ≤ x.score)))
        (List.insertionSort scoreGE scored) :=
      List.Sublist.trans (List.filter_sublist _) (List.take_sublist ..)
    refine ⟨?_, ?_, ?_, ?_⟩
    · rw [List.length_map]
      calc (((List.insertionSort scoreGE scored).take 5).filter
            (fun x => decide (40 ≤ x.score))).length
          ≤ ((List.insertionSort scoreGE scored).take 5).length :=
            List.length_filter_le ..
        _ ≤ 5 := by rw [List.length_take]; exact min_le_left ..
    · apply List.pairwise_map.mpr
      exact (hsorted.sublist hsub).imp (fun hab => hab)
    · intro _ r hr
      obtain ⟨x, hx, rfl⟩ := List.mem_map.mp hr
      have hx40 := (List.mem_filter.mp hx).2
      simpa [mkRec] using hx40
    · intro hall
      exfalso
      obtain ⟨x, hx⟩ := List.exists_mem_of_ne_nil _ hF
      have hx40 : (40 : ℚ) ≤ x.score := by simpa using (List.mem_filter.mp hx).2
      have hxs : x ∈ scored :=
        (List.perm_insertionSort scoreGE scored).mem_iff.mp (hsub.subset hx)
      exact absurd hx40 (not_le.mpr (hall x hxs))

end FarmCore

namespace FarmCore

/-- C4: whenever `recommend_crops`'s try body succeeds, the returned list
has at most 5 entries sorted by descending confidence; every entry has
confidence at least 40 whenever some in-season crop scores at least 40; and
when no in-season crop reaches 40 exactly one recommendation is returned,
carrying the maximal score and the experimental annotation. -/
theorem recommend_crops_output_shape
    (historical_df forecast_df : DataFrame) (month : ℕ) (lat : ℚ)
    (recs : List Recommendation)
    (h : recommendCropsCore historical_df forecast_df month lat = .ok recs) :
    recs.length ≤ 5
    ∧ recs.Pairwise (fun a b => b.confidence ≤ a.confidence)
    ∧ ((∃ c ∈ scoredCrops (extract_climate_data historical_df).1
          (currentSeason month lat), 40 ≤ c.score) →
        ∀ r ∈ recs, 40 ≤ r.confidence)
    ∧ ((∀ c ∈ scoredCrops (extract_climate_data historical_df).1
          (currentSeason month lat), c.score < 40) →
        ∃ r, recs = [r]
          ∧ (∀ c ∈ scoredCrops (extract_climate_data historical_df).1
              (currentSeason month lat), c.score ≤ r.confidence)
          ∧ ∃ s, r.reasons = s ++ ". Consider as experimental with proper adaptations.") := by
  have hok : recs = recommendationsFrom
      (scoredCrops (extract_climate_data historical_df).1 (currentSeason month lat)) := by
    unfold recommendCropsCore at h
    cases hfc : extract_forecast_climate forecast_df with
    | error e => rw [hfc] at h; exact absurd h (by simp)
    | ok fc =>
      rw [hfc] at h
      simp only [Except.ok.injEq] at h
      exact h.symm
  subst hok
  exact recommendationsFrom_shape _ (scoredCrops_ne_nil _ _)

/-- Witness for C4: on empty historical and forecast tables in July at
latitude 40 the body succeeds and the conclusions hold. -/
theorem recommend_crops_output_shape_witness :
    ∃ recs, recommendCropsCore ⟨[], 0⟩ ⟨[], 0⟩ 7 40 = .ok recs
      ∧ recs.length ≤ 5
      ∧ recs.Pairwise (fun a b => b.confidence ≤ a.confidence) := by
  refine ⟨_, rfl, ?_, ?_⟩
  · exact (recommend_crops_output_shape ⟨[], 0⟩ ⟨[], 0⟩ 7 40 _ rfl).1
  · exact (recommend_crops_output_shape ⟨[], 0⟩ ⟨[], 0⟩ 7 40 _ rfl).2.1

end FarmCore

namespace FarmCore

/-- One raw historical record handed to `process_historical_data`
(`data_processor.py` lines 50-105): a date (a day number standing for the
converted datetime) plus optional numeric fields.  An absent field models
both a missing column and a NaN cell; the source materializes missing
columns as 0 and fills NaN with 0 before deduplicating. -/
structure RawRecord where
  date : ℤ
  temp_min : Option ℚ
  temp_max : Option ℚ
  temp_avg : Option ℚ
  humidity : Option ℚ
  clouds : Option ℚ
  wind_speed : Option ℚ
  rain_sum : Option ℚ
  snow_sum : Option ℚ
  humidity_avg : Option ℚ
deriving DecidableEq

/-- A fully materialized historical row after column-defaulting and
`fillna(0)`. -/
structure Row where
  date : ℤ
  temp_min : ℚ
  temp_max : ℚ
  temp_avg : ℚ
  humidity : ℚ
  clouds : ℚ
  wind_speed : ℚ
  rain_sum : ℚ
  snow_sum : ℚ
  humidity_avg : ℚ
deriving DecidableEq

/-- Column-defaulting, `fillna(0)` and numeric coercion of one record
(`data_processor.py` lines 66-94). -/
def toRow (r : RawRecord) : Row :=
  ⟨r.date, r.temp_min.getD 0, r.temp_max.getD 0, r.temp_avg.getD 0, r.humidity.getD 0,
   r.clouds.getD 0, r.wind_speed.getD 0, r.rain_sum.getD 0, r.snow_sum.getD 0,
   r.humidity_avg.getD 0⟩

/-- pandas `drop_duplicates(subset=['date'], keep='first')`: keep the first
row for each date, preserving order; `seen` accumulates the dates already
kept. -/
def dropDupDates (seen : List ℤ) : List Row → List Row
  | [] => []
  | r :: rs =>
    if r.date ∈ seen then dropDupDates seen rs
    else r :: dropDupDates (r.date :: seen) rs

/-- Embedding of `DataProcessor.process_historical_data`
(`data_processor.py` lines 50-105).  The timestamp-to-date conversion is
performed by the record ingestion (`RawRecord.date`); the final
`set_index('date', drop=False)` keeps row order and columns and is a no-op
for the row list.  Deduplication runs only when a duplicate date exists,
exactly as in the source. -/
def process_historical_data (recs : List RawRecord) : List Row :=
  if recs.isEmpty then []
  else
    let rows := recs.map toRow
    if (rows.map Row.date).Nodup then rows
    else dropDupDates [] rows

/-- The modelled trend-estimator frame (`ai_analyzer.py`): an index of day
numbers, whether the index is a datetime index, and optional-valued columns
in which `none` stands for NaN. -/
structure AFrame where
  index : List ℤ
  dateIndex : Bool
  cols : List (String × List (Option ℚ))

/-- Minimum of a list of integers (`.min()` on a datetime index). -/
def intMin : List ℤ → ℤ
  | [] => 0
  | h :: t => t.foldl min h

/-- Closed form of the least-squares slope `np.polyfit(x, y, 1)[0]`.
Rational division by a zero denominator yields 0, standing for the
degenerate fit the source never reaches on its perturbed inputs. -/
def lsSlope (x y : List ℚ) : ℚ :=
  let n : ℚ := x.length
  let sx := x.sum
  let sy := y.sum
  let sxy := ((x.zip y).map (fun p => p.1 * p.2)).sum
  let sxx := (x.map (fun a => a * a)).sum
  (n * sxy - sx * sy) / (n * sxx - sx * sx)

/-- Embedding of `WeatherPatternAnalyzer._calculate_trend`
(`ai_analyzer.py` lines 521-563): missing column gives 0; drop NaN; fewer
than 10 valid points give 0; otherwise a linear fit of value against days
since window start (or positional indices), with the all-zero abscissa
perturbed by `linspace(0, 1, n)`, scaled to change per month. -/
def calculate_trend (df : AFrame) (column : String) : ℚ :=
  match lookupCol df.cols column with
  | none => 0
  | some col =>
    let pairs := (df.index.zip col).filterMap (fun p => p.2.map (fun v => (p.1, v)))
    if pairs.length < 10 then 0
    else
      let xInt : List ℤ :=
        if df.dateIndex then pairs.map (fun p => p.1 - intMin (pairs.map Prod.fst))
        else (List.range pairs.length).map Int.ofNat
      let x : List ℚ :=
        if xInt.all (fun z => z == 0) then
          (List.range pairs.length).map (fun k => (k : ℚ) / ((pairs.length : ℚ) - 1))
        else xInt.map (fun z => (z : ℚ))
      lsSlope x (pairs.map Prod.snd) * 30

/-- One day of the prepared 6-feature analysis table fed to the pattern
detector (`_prepare_data_for_analysis`, `ai_analyzer.py` lines 74-109). -/
structure PRow where
  temp_avg : ℚ
  temp_min : ℚ
  temp_max : ℚ
  humidity_avg : ℚ
  rain_sum : ℚ
  wind_speed : ℚ
deriving DecidableEq

/-- Embedding of `_generate_cluster_description`
(`ai_analyzer.py` lines 249-302). -/
def generate_cluster_description (cluster : List PRow) : String :=
  let avg_temp := qMean (cluster.map PRow.temp_avg)
  let temp_desc :=
    if avg_temp < 5 then "cold"
    else if avg_temp < 15 then "cool"
    else if avg_temp < 25 then "mild"
    else "hot"
  let avg_rain := qMean (cluster.map PRow.rain_sum)
  let rain_desc :=
    if avg_rain < 0.1 then "dry"
    else if avg_rain < 2 then "light precipitation"
    else if avg_rain < 10 then "moderate precipitation"
    else "heavy precipitation"
  let avg_humidity := qMean (cluster.map PRow.humidity_avg)
  let humidity_desc :=
    if avg_humidity < 40 then "low humidity"
    else if avg_humidity < 70 then "moderate humidity"
    else "high humidity"
  let avg_wind := qMean (cluster.map PRow.wind_speed)
  let wind_desc :=
    if avg_wind < 3 then "light winds"
    else if avg_wind < 7 then "moderate winds"
    else "strong winds"
  temp_desc ++ " days with " ++ rain_desc ++ ", " ++ humidity_desc ++ ", and " ++ wind_desc

/-- One reported cluster (`_identify_patterns`, `ai_analyzer.py`
lines 218-237). -/
structure ClusterInfo where
  id : ℕ
  size : ℕ
  percentage : ℚ
  avg_temp : ℚ
  avg_rain : ℚ
  avg_humidity : ℚ
  description : String
deriving DecidableEq

/-- The cluster count `min(5, len(analysis_df) // 10) if len > 10 else 2`
(`ai_analyzer.py` line 212). -/
def nClusters (n : ℕ) : ℕ := if 10 < n then min 5 (n / 10) else 2

/-- Embedding of `_identify_patterns` (`ai_analyzer.py` lines 192-247).
The `fit` oracle abstracts `KMeans(n_clusters, random_state=42).fit_predict`
applied to the standardized feature matrix: it returns one cluster label per
row; any clustering contract (label per row, labels below the cluster
count) enters the theorems as explicit hypotheses.  The source's
`seasonal_patterns` entry is always the empty dict and is omitted. -/
def identify_patterns (fit : ℕ → List PRow → List ℕ) (rows : List PRow) :
    List ClusterInfo :=
  let n_clusters := nClusters rows.length
  let labels := fit n_clusters rows
  (List.range n_clusters).filterMap (fun i =>
    let cluster_df := ((rows.zip labels).filter (fun p => p.2 == i)).map Prod.fst
    if cluster_df.length = 0 then none
    else some ⟨i, cluster_df.length,
      (cluster_df.length : ℚ) / (rows.length : ℚ) * 100,
      qMean (cluster_df.map PRow.temp_avg), qMean (cluster_df.map PRow.rain_sum),
      qMean (cluster_df.map PRow.humidity_avg),
      generate_cluster_description cluster_df⟩)

end FarmCore

namespace FarmCore

theorem dropDupDates_sublist (l : List Row) :
    ∀ seen, List.Sublist (dropDupDates seen l) l := by
  induction l with
  | nil => intro seen; simp [dropDupDates]
  | cons r rs ih =>
    intro seen
    unfold dropDupDates
    by_cases h : r.date ∈ seen
    · rw [if_pos h]
      exact (ih seen).trans (List.sublist_cons_self r rs)
    · rw [if_neg h]
      exact (ih (r.date :: seen)).cons₂ r

theorem mem_dropDupDates (l : List Row) :
    ∀ seen r, r ∈ dropDupDates seen l → r ∈ l ∧ r.date ∉ seen := by
  induction l with
  | nil => intro seen r h; simp [dropDupDates] at h
  | cons a rs ih =>
    intro seen r h
    unfold dropDupDates at h
    by_cases ha : a.date ∈ seen
    · rw [if_pos ha] at h
      obtain ⟨h1, h2⟩ := ih seen r h
      exact ⟨List.mem_cons_of_mem a h1, h2⟩
    · rw [if_neg ha] at h
      rcases List.mem_cons.mp h with rfl | h
      · exact ⟨List.mem_cons_self .., ha⟩
      · obtain ⟨h1, h2⟩ := ih (a.date :: seen) r h
        refine ⟨List.mem_cons_of_mem a h1, fun hs => h2 ?_⟩
        exact List.mem_cons_of_mem _ hs

theorem nodup_dropDupDates (l : List Row) :
    ∀ seen, ((dropDupDates seen l).map Row.date).Nodup := by
  induction l with
  | nil => intro seen; simp [dropDupDates]
  | cons a rs ih =>
    intro seen
    unfold dropDupDates
    by_cases ha : a.date ∈ seen
    · rw [if_pos ha]; exact ih seen
    · rw [if_neg ha]
      rw [List.map_cons, List.nodup_cons]
      refine ⟨?_, ih (a.date :: seen)⟩
      intro hmem
      obtain ⟨r, hr, hdate⟩ := List.mem_map.mp hmem
      have := (mem_dropDupDates rs (a.date :: seen) r hr).2
      exact this (hdate ▸ List.mem_cons_self ..)

theorem find?_cons_pos_row (p : Row → Bool) (a : Row) (l : List Row) (h : p a = true) :
    List.find? p (a :: l) = some a := by
  simp [List.find?, h]

theorem find?_cons_neg_row (p : Row → Bool) (a : Row) (l : List Row) (h : p a = false) :
    List.find? p (a :: l) = List.find? p l := by
  simp [List.find?, h]

theorem find_dropDupDates (l : List Row) :
    ∀ seen r, r ∈ dropDupDates seen l →
      l.find? (fun s => s.date == r.date) = some r := by
  induction l with
  | nil => intro seen r h; simp [dropDupDates] at h
  | cons a rs ih =>
    intro seen r h
    unfold dropDupDates at h
    by_cases ha : a.date ∈ seen
    · rw [if_pos ha] at h
      have hr := mem_dropDupDates rs seen r h
      have hne : ((fun s => s.date == r.date) a) = false := by
        simp only [beq_eq_false_iff_ne, ne_eq]
        intro he
        exact hr.2 (he ▸ ha)
      rw [find?_cons_neg_row (fun s => s.date == r.date) a rs hne]
      exact ih seen r h
    · rw [if_neg ha] at h
      rcases List.mem_cons.mp h with heq | h
      · subst heq
        exact find?_cons_pos_row (fun s => s.date == r.date) r rs (by simp)
      · have hr := mem_dropDupDates rs (a.date :: seen) r h
        have hne : ((fun s => s.date == r.date) a) = false := by
          simp only [beq_eq_false_iff_ne, ne_eq]
          intro he
          exact hr.2 (he ▸ List.mem_cons_self ..)
        rw [find?_cons_neg_row (fun s => s.date == r.date) a rs hne]
        exact ih (a.date :: seen) r h

theorem dates_dropDupDates (l : List Row) :
    ∀ seen r, r ∈ l → r.date ∉ seen →
      ∃ x ∈ dropDupDates seen l, x.date = r.date := by
  induction l with
  | nil => intro seen r h; simp at h
  | cons a rs ih =>
    intro seen r hr hseen
    unfold dropDupDates
    by_cases ha : a.date ∈ seen
    · rw [if_pos ha]
      rcases List.mem_cons.mp hr with heq | hmem
      · exact absurd ha (heq ▸ hseen)
      · exact ih seen r hmem hseen
    · rw [if_neg ha]
      rcases List.mem_cons.mp hr with heq | hmem
      · exact ⟨a, List.mem_cons_self .., (heq ▸ rfl : a.date = r.date)⟩
      · by_cases hd : r.date = a.date
        · exact ⟨a, List.mem_cons_self .., hd.symm⟩
        · obtain ⟨x, hx, hxd⟩ := ih (a.date :: seen) r hmem (by
            intro hmem2
            rcases List.mem_cons.mp hmem2 with h1 | h1
            · exact hd h1
            · exact hseen h1)
          exact ⟨x, List.mem_cons_of_mem a hx, hxd⟩

end FarmCore

namespace FarmCore

/-- C2 (counterexample): the input with dates [2, 1, 2] contains a
duplicate date; after processing the kept rows have dates [2, 1], which is
not strictly sorted ascending, refuting the claim's sortedness part (the
source never sorts). -/
theorem process_historical_not_sorted :
    ¬(((process_historical_data
        [⟨2, none, none, none, none, none, none, none, none, none⟩,
         ⟨1, none, none, none, none, none, none, none, none, none⟩,
         ⟨2, none, none, none, none, none, none, none, none, none⟩]).map Row.date).Sorted
      (· < ·)) := by
  decide

/-- C2 (amended): for every input sequence containing duplicate dates, the
historical processing keeps exactly one row per date, namely the first
occurrence (it is the `find?` result for its date, dates are pairwise
distinct, every input date survives), and preserves the relative input
order (the output is a sublist of the input rows); consequently the result
is strictly sorted ascending by date whenever the input was sorted
(non-strictly) by date - but no sorting is performed on unsorted input. -/
theorem process_historical_dedup (recs : List RawRecord)
    (hdup : ¬((recs.map toRow).map Row.date).Nodup) :
    (((process_historical_data recs).map Row.date).Nodup)
    ∧ (∀ r ∈ process_historical_data recs,
        (recs.map toRow).find? (fun s => s.date == r.date) = some r)
    ∧ (∀ r0 ∈ recs.map toRow, ∃ x ∈ process_historical_data recs, x.date = r0.date)
    ∧ List.Sublist (process_historical_data recs) (recs.map toRow)
    ∧ (((recs.map toRow).map Row.date).Sorted (· ≤ ·) →
        ((process_historical_data recs).map Row.date).Sorted (· < ·)) := by
  have hne : recs.isEmpty = false := by
    cases recs with
    | nil => simp at hdup
    | cons a l => rfl
  have hres : process_historical_data recs = dropDupDates [] (recs.map toRow) := by
    unfold process_historical_data
    rw [hne]
    simp only [Bool.false_eq_true, if_false]
    rw [if_neg hdup]
  rw [hres]
  refine ⟨nodup_dropDupDates _ _, fun r hr => find_dropDupDates _ _ r hr, ?_, ?_, ?_⟩
  · intro r0 hr0
    exact dates_dropDupDates _ [] r0 hr0 (List.not_mem_nil _)
  · exact dropDupDates_sublist _ []
  · intro hsorted
    have hsub : List.Sublist ((dropDupDates [] (recs.map toRow)).map Row.date)
        (((recs.map toRow)).map Row.date) := (dropDupDates_sublist _ []).map Row.date
    have hle : ((dropDupDates [] (recs.map toRow)).map Row.date).Sorted (· ≤ ·) :=
      hsorted.sublist hsub
    have hnd : ((dropDupDates [] (recs.map toRow)).map Row.date).Nodup :=
      nodup_dropDupDates _ []
    exact (hle.and hnd).imp (fun h => lt_of_le_of_ne h.1 h.2)

end FarmCore

namespace FarmCore

/-- Witness for C2 (amended): dates [1, 1, 2] contain a duplicate; the
output dates are [1, 2], duplicate-free and strictly increasing. -/
theorem process_historical_dedup_witness :
    (((process_historical_data
        [⟨1, none, none, none, none, none, none, none, none, none⟩,
         ⟨1, none, none, none, none, none, none, none, none, none⟩,
         ⟨2, none, none, none, none, none, none, none, none, none⟩]).map Row.date).Nodup)
    ∧ (((process_historical_data
        [⟨1, none, none, none, none, none, none, none, none, none⟩,
         ⟨1, none, none, none, none, none, none, none, none, none⟩,
         ⟨2, none, none, none, none, none, none, none, none, none⟩]).map Row.date).Sorted
      (· < ·)) := by
  have h := process_historical_dedup
    [⟨1, none, none, none, none, none, none, none, none, none⟩,
     ⟨1, none, none, none, none, none, none, none, none, none⟩,
     ⟨2, none, none, none, none, none, none, none, none, none⟩] (by decide)
  exact ⟨h.1, h.2.2.2.2 (by decide)⟩

end FarmCore

namespace FarmCore

theorem pairs_length_le (idx : List ℤ) (col : List (Option ℚ)) :
    ((idx.zip col).filterMap (fun p => p.2.map (fun v => (p.1, v)))).length
      ≤ col.countP (fun v => v.isSome) := by
  induction idx generalizing col with
  | nil => simp
  | cons i is ih =>
    cases col with
    | nil => simp
    | cons c cs =>
      cases c with
      | none =>
        simpa [List.countP_cons] using le_trans (ih cs) (by simp)
      | some v =>
        simpa [List.countP_cons] using ih cs

/-- C8: the per-column trend computation drops missing values first and
returns trend = 0 whenever fewer than 10 valid data points remain in the
named column. -/
theorem calculate_trend_insufficient (df : AFrame) (column : String)
    (col : List (Option ℚ)) (hcol : lookupCol df.cols column = some col)
    (hfew : col.countP (fun v => v.isSome) < 10) :
    calculate_trend df column = 0 := by
  unfold calculate_trend
  rw [hcol]
  dsimp only
  rw [if_pos (lt_of_le_of_lt (pairs_length_le df.index col) hfew)]

/-- Witness for C8: a 12-entry column with only 9 valid (non-NaN) values
yields trend 0. -/
theorem calculate_trend_insufficient_witness :
    calculate_trend
      ⟨[0, 1, 2, 3, 4, 5, 6, 7, 8, 9, 10, 11], true,
        [("temp_avg",
          [some 1, some 2, some 3, none, some 4, some 5, none, some 6,
           some 7, some 8, none, some 9])]⟩ "temp_avg" = 0 := by
  exact calculate_trend_insufficient
    ⟨[0, 1, 2, 3, 4, 5, 6, 7, 8, 9, 10, 11], true,
      [("temp_avg",
        [some 1, some 2, some 3, none, some 4, some 5, none, some 6,
         some 7, some 8, none, some 9])]⟩ "temp_avg"
    [some 1, some 2, some 3, none, some 4, some 5, none, some 6,
     some 7, some 8, none, some 9] rfl (by decide)

end FarmCore

namespace FarmCore

/-- C10: for an analysis window of n days with 11 <= n <= 19 the cluster
count min(5, n // 10) evaluates to 1, so (for any clustering that assigns
each of the n rows a label below the cluster count) pattern detection
reports exactly one cluster, of size n and percentage 100. -/
theorem identify_patterns_single_cluster (fit : ℕ → List PRow → List ℕ)
    (rows : List PRow)
    (h11 : 11 ≤ rows.length) (h19 : rows.length ≤ 19)
    (hlen : (fit 1 rows).length = rows.length)
    (hlab : ∀ l ∈ fit 1 rows, l < 1) :
    nClusters rows.length = 1
    ∧ ∃ c, identify_patterns fit rows = [c]
        ∧ c.size = rows.length ∧ c.percentage = 100 := by
  have hk : nClusters rows.length = 1 := by
    unfold nClusters
    rw [if_pos (by omega)]
    have hdiv : rows.length / 10 = 1 := by omega
    rw [hdiv]
    decide
  have hne : rows.length ≠ 0 := by omega
  have hcast : ((rows.length : ℚ)) ≠ 0 := by exact_mod_cast hne
  have hfilter : ((rows.zip (fit 1 rows)).filter (fun p => p.2 == 0))
      = rows.zip (fit 1 rows) := by
    apply List.filter_eq_self.mpr
    intro p hp
    obtain ⟨a, b, rfl⟩ : ∃ a b, p = (a, b) := ⟨p.1, p.2, rfl⟩
    have hb : b ∈ fit 1 rows := (List.of_mem_zip hp).2
    have := hlab b hb
    simp only [beq_iff_eq]
    omega
  have hcdf : ((rows.zip (fit 1 rows)).filter (fun p => p.2 == 0)).map Prod.fst
      = rows := by
    rw [hfilter]
    exact List.map_fst_zip rows (fit 1 rows) (by omega)
  refine ⟨hk, ?_⟩
  unfold identify_patterns
  dsimp only
  rw [hk]
  rw [show List.range 1 = [0] from rfl]
  simp only [List.filterMap_cons, List.filterMap_nil]
  rw [hcdf]
  rw [if_neg hne]
  refine ⟨_, rfl, rfl, ?_⟩
  simp only
  rw [div_self hcast, one_mul]

end FarmCore

namespace FarmCore

/-- Witness for C10: 15 identical rows and the constant labelling yield the
single all-rows cluster at 100 percent. -/
theorem identify_patterns_single_cluster_witness :
    nClusters 15 = 1
    ∧ ∃ c, identify_patterns (fun _ r => List.replicate r.length 0)
        (List.replicate 15 (⟨20, 10, 30, 50, 1, 3⟩ : PRow)) = [c]
        ∧ c.size = 15 ∧ c.percentage = 100 := by
  have h := identify_patterns_single_cluster (fun _ r => List.replicate r.length 0)
    (List.replicate 15 (⟨20, 10, 30, 50, 1, 3⟩ : PRow)) (by decide) (by decide)
    (by simp)
    (by
      intro l hl
      rw [List.eq_of_mem_replicate hl]
      decide)
  exact h

end FarmCore
